import Mathlib

/-!
Shallow embedding of the fictionsource search and visibility engine
(src/models.py, src/search.py, src/app.py) together with proofs about it.

Python strings are modelled as Lean `String`s, with all string primitives
re-implemented over `List Char` (code points, matching Python `len`/indexing
semantics) so that every definition evaluates by kernel reduction.
Machine-level concerns do not arise: Python integers are unbounded, so `Int`
and `Nat` are used directly.
-/

namespace FS

/- ===== character/string primitives (Python semantics) ===== -/

/-- The double-quote character (written via its code point). -/
def quoteChar : Char := Char.ofNat 34

/-- The backslash character (written via its code point). -/
def backslashChar : Char := Char.ofNat 92

/-- The single-quote character (written via its code point). -/
def aposChar : Char := Char.ofNat 39

/-- ASCII whitespace stripped by Python `str.strip()` (the inputs in scope
contain no non-ASCII whitespace). -/
def isPySpace (c : Char) : Bool :=
  c = ' ' || c = Char.ofNat 9 || c = Char.ofNat 10 ||
  c = Char.ofNat 13 || c = Char.ofNat 11 || c = Char.ofNat 12

/-- Python `str.strip()`. -/
def pyStrip (l : List Char) : List Char :=
  ((l.dropWhile isPySpace).reverse.dropWhile isPySpace).reverse

/-- Python `str.split(c)` for a single-character separator (keeps empties). -/
def splitChar (c : Char) : List Char → List (List Char)
  | [] => [[]]
  | d :: rest =>
    match splitChar c rest with
    | [] => [[]]
    | g :: gs => if d = c then [] :: g :: gs else (d :: g) :: gs

/-- Python `' '.join(groups)`. -/
def joinSpace : List (List Char) → List Char
  | [] => []
  | [x] => x
  | x :: xs => x ++ ' ' :: joinSpace xs

/-- Python `str.split(c, 1)`: split at the first occurrence, if any. -/
def splitFirst (c : Char) : List Char → Option (List Char × List Char)
  | [] => none
  | d :: rest =>
    if d = c then some ([], rest)
    else match splitFirst c rest with
      | none => none
      | some (a, b) => some (d :: a, b)

/-- Python `str.replace(c, r)` for a single-character pattern. -/
def replaceChar (c : Char) (r : List Char) : List Char → List Char
  | [] => []
  | d :: rest => (if d = c then r else [d]) ++ replaceChar c r rest

/-- Adding an element to a Python `set`, modelled as a duplicate-free list
keeping first-insertion order. -/
def addSet (x : String) (l : List String) : List String :=
  if l.contains x then l else l ++ [x]

/-- Python `set(collection)` over strings (deduplication). -/
def dedupSet (l : List String) : List String :=
  l.foldl (fun acc x => addSet x acc) []

/-- Case-insensitive substring occurrence (the spec notion of a phrase
occurring in a field); `needle` occurs somewhere inside `hay`. -/
def containsCI (hay needle : String) : Prop :=
  (needle.data.map Char.toLower) <:+: (hay.data.map Char.toLower)

instance (hay needle : String) : Decidable (containsCI hay needle) := by
  unfold containsCI
  infer_instance

/-- models.reduce_whitespace: strip, split on single spaces, drop empties,
rejoin with single spaces. -/
def reduce_whitespace (s : String) : String :=
  String.mk (joinSpace (((splitChar ' ' (pyStrip s.data)).filter
    (fun x => x.length > 0))))

/- ===== data model (src/models.py) ===== -/

/-- A site user; only the fields read by the search/visibility engine. -/
structure User where
  username : String
  allow_risque : Bool := false
deriving DecidableEq

/-- User.USERNAME_LENGTH. -/
def User.USERNAME_LENGTH : Nat := 32

/-- Code points rejected by User.is_valid_username. -/
def User.invalid_username_chars : List Nat :=
  (List.range 0x30) ++
  [0x3a, 0x3b, 0x3c, 0x3d, 0x3e, 0x3f, 0x40,
   0x5b, 0x5c, 0x5d, 0x5e, 0x60, 0x7b, 0x7c, 0x7d, 0x7e, 0x7f, 0xa0,
   0x1680, 0x180e, 0x2000, 0x2001, 0x2002, 0x2003, 0x2004, 0x2005,
   0x2006, 0x2007, 0x2008, 0x2009, 0x200a, 0x200b, 0x200c, 0x200d,
   0x2028, 0x2029, 0x2060, 0x202f, 0x205f, 0x3000, 0xfeff]

/-- User.is_valid_username. -/
def User.is_valid_username (username : String) : Bool :=
  if username.data.length > User.USERNAME_LENGTH || username.data.length < 1 then
    false
  else
    username.data.all (fun c => !(User.invalid_username_chars.contains c.toNat))

/-- Tag.Type enumeration. -/
inductive TagType where
  | generic
  | genre
  | category
  | character
  | series
deriving DecidableEq

/-- A tag row: id, type and name. -/
structure Tag where
  id : Nat
  ttype : TagType
  name : String
deriving DecidableEq

/-- Tag.NAME_MIN_LENGTH. -/
def Tag.NAME_MIN_LENGTH : Nat := 3

/-- Tag.NAME_LENGTH. -/
def Tag.NAME_LENGTH : Nat := 96

/-- Code points rejected by Tag.is_valid_name. -/
def Tag.invalid_name_chars : List Nat :=
  (List.range 0x30) ++
  [0x3a, 0x3b, 0x3c, 0x3d, 0x3e, 0x3f, 0x40, 0x5b, 0x5c, 0x5d, 0x5e, 0x60,
   0x1680, 0x180e, 0x2000, 0x2001, 0x2002, 0x2003, 0x2004, 0x2005,
   0x2006, 0x2007, 0x2008, 0x2009, 0x200a, 0x200b, 0x200c, 0x200d,
   0x2028, 0x2029, 0x2060, 0x202f, 0x205f, 0x3000, 0xfeff]

/-- Tag.is_valid_name. -/
def Tag.is_valid_name (name : String) : Bool :=
  if name.data.length > Tag.NAME_LENGTH || name.data.length < Tag.NAME_MIN_LENGTH then
    false
  else
    name.data.all (fun c => !(Tag.invalid_name_chars.contains c.toNat))

/-- Tag.tag_types: the lowercase member names of Tag.Type. -/
def Tag.tag_types : List String :=
  ["generic", "genre", "category", "character", "series"]

/-- Tag.is_valid_type: exact membership in the lowercase type names. -/
def Tag.is_valid_type (t : String) : Bool :=
  Tag.tag_types.contains t

/-- Tag.Type.__members__[t.upper()], defined on the valid lowercase names. -/
def Tag.type_of_string (t : String) : TagType :=
  if t = "genre" then .genre
  else if t = "category" then .category
  else if t = "character" then .character
  else if t = "series" then .series
  else .generic

/-- A chapter row; only the fields read by the search engine. -/
structure Chapter where
  flags : Nat := 1
  author_notes : Option String := none
  text : String := ""
deriving DecidableEq

/-- Chapter.Flags.PRIVATE. -/
def Chapter.PRIVATE : Nat := 1

/-- Chapter.Flags.PROTECTED. -/
def Chapter.PROTECTED : Nat := 2

/-- A story row with its author's username (the Story.author join), its
chapters (the Story.chapters join) and the usernames of favoriting/following
users. Timestamps are abstracted to naturals (only their order matters). -/
structure Story where
  id : Nat
  author : String := ""
  title : String := ""
  summary : String := ""
  flags : Nat := 5
  chapters : List Chapter := []
  modified : Nat := 0
  posted : Nat := 0
  favorited_by : List String := []
  followed_by : List String := []
deriving DecidableEq

/-- Story.Flags.PRIVATE. -/
def Story.PRIVATE : Nat := 1

/-- Story.Flags.PROTECTED. -/
def Story.PROTECTED : Nat := 2

/-- Story.Flags.CAN_COMMENT. -/
def Story.CAN_COMMENT : Nat := 4

/-- Story.Flags.IS_RISQUE. -/
def Story.IS_RISQUE : Nat := 8

/-- The queryable store: story rows, tag rows and the story_tags
association table (story_id, tag_id). -/
structure DB where
  stories : List Story := []
  tags : List Tag := []
  story_tags : List (Nat × Nat) := []
deriving DecidableEq

/-- Story.visible_stories: stories with PRIVATE and PROTECTED clear and,
unless the viewer has allow_risque, IS_RISQUE clear. -/
def Story.visible_stories (db : DB) (user : Option User) : List Story :=
  let q := db.stories.filter
    (fun s => s.flags &&& (Story.PRIVATE ||| Story.PROTECTED) == 0)
  if (match user with
      | none => true
      | some u => !u.allow_risque) then
    q.filter (fun s => s.flags &&& Story.IS_RISQUE == 0)
  else
    q

/- ===== Tag.get (single-name form, as invoked by search.check_set) ===== -/

/-- Tag.get for one query name: parse the `#name` / `type:name` form,
collect validation errors (raised as one ValueError), otherwise look the
(type, name) pair up in the store; a missing tag is `none`, not an error. -/
def Tag.get (db : DB) (qname : String) : Except (List String) (Option Tag) :=
  let (ttypeTok, name) :=
    match qname.data with
    | '#' :: rest => (some ("generic".data), rest)
    | cs =>
      match splitFirst ':' cs with
      | some (t, n) => (some t, n)
      | none => (none, cs)
  let errs1 : List String :=
    match ttypeTok with
    | none => ["No tag type provided."]
    | some t =>
      if Tag.is_valid_type (String.mk t) then []
      else ["Invalid tag type \"" ++ String.mk t ++ "\"."]
  let ttype : TagType :=
    match ttypeTok with
    | none => TagType.generic
    | some t =>
      if Tag.is_valid_type (String.mk t) then Tag.type_of_string (String.mk t)
      else TagType.generic
  let errs2 : List String :=
    if name.length < Tag.NAME_MIN_LENGTH then
      ["Tag name must be at least 3 characters long."]
    else if name.length > Tag.NAME_LENGTH then
      ["Tag name must not be greater than 96 characters in length."]
    else if !Tag.is_valid_name (String.mk name) then
      ["Invalid tag name \"" ++ String.mk name ++ "\"."]
    else []
  let errors := errs1 ++ errs2
  if errors.length > 0 then
    Except.error errors
  else
    Except.ok (db.tags.find? (fun t => t.ttype == ttype && t.name == String.mk name))

/-- Whether a tag token resolves to an existing tag through Tag.get (no
validation error and a row found). -/
def tagResolves (db : DB) (qname : String) : Bool :=
  match Tag.get db qname with
  | Except.ok (some _) => true
  | _ => false

/- ===== SQL LIKE / ILIKE (as used through SQLAlchemy ilike with escape '/') ===== -/

/-- SQL LIKE pattern matching over code points: `%` matches any run, `_` any
single character, the escape character quotes the next pattern character.
Fuel-based so that it evaluates by kernel reduction; each step consumes at
least one pattern or subject character, so `likeFuel` below always suffices. -/
def likeCore (esc : Char) : Nat → List Char → List Char → Bool
  | 0, _, _ => false
  | _ + 1, [], s => s.isEmpty
  | fuel + 1, p :: ps, s =>
    if p = esc then
      match ps, s with
      | c :: ps2, d :: s2 => c = d && likeCore esc fuel ps2 s2
      | _, _ => false
    else if p = '%' then
      likeCore esc fuel ps s ||
        (match s with
         | [] => false
         | _ :: s2 => likeCore esc fuel (p :: ps) s2)
    else if p = '_' then
      match s with
      | [] => false
      | _ :: s2 => likeCore esc fuel ps s2
    else
      match s with
      | [] => false
      | d :: s2 => p = d && likeCore esc fuel ps s2

/-- Sufficient fuel for likeCore: the sum of both lengths plus one. -/
def likeFuel (pat s : List Char) : Nat :=
  pat.length + s.length + 1

/-- Case-insensitive LIKE with escape character '/', i.e. the semantics of
`column.ilike(pattern, escape='/')`. -/
def sqlILike (s : String) (pat : List Char) : Bool :=
  let ls := s.data.map Char.toLower
  let lp := pat.map Char.toLower
  likeCore '/' (likeFuel lp ls) lp ls

/-- search.collate_phrase_clauses escaping:
`phrase.replace('/', '//').replace('%', '/%').replace("'", "/'")`. -/
def escape_phrase (p : List Char) : List Char :=
  replaceChar aposChar ['/', aposChar]
    (replaceChar '%' ['/', '%']
      (replaceChar '/' ['/', '/'] p))

/-- The ilike pattern the code builds for a phrase: the f-string
`'%{escaped_phrase}%'` places literal single quotes inside the pattern. -/
def phrase_pattern (phrase : String) : List Char :=
  aposChar :: '%' :: (escape_phrase phrase.data ++ ['%', aposChar])

/-- One phrase's disjunct in search.collate_phrase_clauses, evaluated on a
(story, chapter) joined row: title, summary, author notes (a NULL
author_notes satisfies the clause outright) or chapter text. -/
def phrase_clause (phrase : String) (s : Story) (ch : Chapter) : Bool :=
  let pat := phrase_pattern phrase
  sqlILike s.title pat ||
  sqlILike s.summary pat ||
  (ch.author_notes.isNone ||
    sqlILike (ch.author_notes.getD "") pat) ||
  sqlILike ch.text pat

/-- search.collate_phrase_clauses: OR of the individual phrase clauses. -/
def collate_phrase_clauses (phrases : List String) (s : Story) (ch : Chapter) : Bool :=
  phrases.any (fun p => phrase_clause p s ch)

/- ===== SearchResults (src/search.py) ===== -/

/-- SearchSortEnum.good_values(). -/
def SearchSortEnum.good_values : List String :=
  ["modified", "posted", "favorites", "follows"]

/-- The arguments of SearchResults.__init__ with their Python defaults.
The embedding covers the well-typed calls (offset/count integers, the six
collections lists of strings), which is the shape both call sites produce. -/
structure SearchArgs where
  user : Option User := none
  offset : Int := 0
  count : Int := 25
  sort_by : Option String := none
  descending : Bool := true
  filter_risque : Option Bool := some true
  include_tags : List String := []
  exclude_tags : List String := []
  include_users : List String := []
  exclude_users : List String := []
  include_phrases : List String := []
  exclude_phrases : List String := []
deriving DecidableEq

/-- The data SearchResults.to_json exposes: story ids of the returned page,
num_results and the 1-based window bounds. -/
structure SearchResult where
  results : List Nat
  num_results : Nat
  start : Nat
  «end» : Nat
deriving DecidableEq

/-- search.check_set applied to a tag collection: deduplicate, then apply
`lambda x: Tag.get(x).id` item-wise, silently skipping every item whose
application raises (a malformed token raises ValueError inside Tag.get; an
unresolvable one returns None and raises AttributeError on `.id`). -/
def check_set_tags (db : DB) (coll : List String) : List Nat :=
  (dedupSet coll).filterMap (fun x =>
    match Tag.get db x with
    | Except.ok (some t) => some t.id
    | _ => none)

/-- The validation-error messages SearchResults.__init__ collects, in
collection order, for a well-typed call. -/
def search_errors (a : SearchArgs) : List String :=
  (if a.offset < 0 then ["'offset' must be greater than zero."] else []) ++
  (if a.count < 1 then ["'count' must be greater than 1."] else []) ++
  (match a.sort_by with
   | none => []
   | some s =>
     if SearchSortEnum.good_values.contains s then []
     else ["'sort_by' must be one of: modified, posted, favorites, follows"]) ++
  (if (dedupSet a.include_users).any (fun x => !User.is_valid_username x) then
    ["Items in 'include_users' must be valid usernames."] else []) ++
  (if (dedupSet a.exclude_users).any (fun x => !User.is_valid_username x) then
    ["Items in 'exclude_users' must be valid usernames."] else []) ++
  (if (dedupSet a.include_phrases).any (fun x => x.data.length < 3) then
    ["Items in 'include_phrases' must be at least 3 characters long."] else []) ++
  (if (dedupSet a.exclude_phrases).any (fun x => x.data.length < 3) then
    ["Items in 'exclude_phrases' must be at least 3 characters long."] else [])

/-- The tag-membership filters (both StoryTag exists-subqueries). -/
def filter_tags (db : DB) (incTags excTags : List Nat) (l : List Story) : List Story :=
  if incTags.length + excTags.length > 0 then
    let la :=
      if incTags.length > 0 then
        l.filter (fun s => db.story_tags.any
          (fun st => st.1 == s.id && incTags.contains st.2))
      else l
    if excTags.length > 0 then
      la.filter (fun s => !(db.story_tags.any
        (fun st => st.1 == s.id && excTags.contains st.2)))
    else la
  else l

/-- The author-username filters (join Story.author, then membership). -/
def filter_users (incUsers excUsers : List String) (l : List Story) : List Story :=
  if incUsers.length + excUsers.length > 0 then
    let la :=
      if incUsers.length > 0 then
        l.filter (fun s => incUsers.contains s.author)
      else l
    if excUsers.length > 0 then
      la.filter (fun s => !(excUsers.contains s.author))
    else la
  else l

/-- The phrase filters: join Story.chapters restricted to chapters with
neither PRIVATE nor PROTECTED set, apply the include clause and the negated
exclude clause per joined row; after the later DISTINCT on Story.id a story
remains exactly when some joined row passed every row filter. -/
def filter_phrases (incPhrases excPhrases : List String) (l : List Story) : List Story :=
  if incPhrases.length + excPhrases.length > 0 then
    l.filter (fun s => s.chapters.any (fun ch =>
      ch.flags &&& (Chapter.PRIVATE ||| Chapter.PROTECTED) == 0 &&
      (incPhrases.length == 0 || collate_phrase_clauses incPhrases s ch) &&
      (excPhrases.length == 0 || !(collate_phrase_clauses excPhrases s ch))))
  else l

/-- The risque filter: True keeps IS_RISQUE clear, False keeps it set,
None applies no filter. -/
def filter_risque_stage (fr : Option Bool) (l : List Story) : List Story :=
  match fr with
  | some true => l.filter (fun s => s.flags &&& Story.IS_RISQUE == 0)
  | some false => l.filter (fun s => !(s.flags &&& Story.IS_RISQUE == 0))
  | none => l

/-- The ordering key selected from sort_by: a timestamp for
modified/posted, a favoriter/follower count for favorites/follows. -/
def ordering_key (sort_by : String) (s : Story) : Nat :=
  if sort_by = "modified" then s.modified
  else if sort_by = "posted" then s.posted
  else if sort_by = "favorites" then s.favorited_by.length
  else s.followed_by.length

/-- Keep the first row for each key: `Query.distinct(Story.id, ordering)`. -/
def distinct_by_key (key : Story → Nat × Nat) (seen : List (Nat × Nat)) :
    List Story → List Story
  | [] => []
  | x :: xs =>
    if seen.contains (key x) then distinct_by_key key seen xs
    else x :: distinct_by_key key (key x :: seen) xs

/-- Insert into a sorted list, preserving the order of equal keys. -/
def ordered_insert (le : Story → Story → Bool) (x : Story) : List Story → List Story
  | [] => [x]
  | y :: ys => if le x y then x :: y :: ys else y :: ordered_insert le x ys

/-- Insertion sort implementing `Query.order_by(ordering)` (a deterministic
total order refining the SQL ordering). -/
def sort_stories (le : Story → Story → Bool) : List Story → List Story
  | [] => []
  | x :: xs => ordered_insert le x (sort_stories le xs)

/-- The filtered, deduplicated, sorted result set of SearchResults.__init__
just before `count()` and `slice()` are applied. -/
def assemble_sorted (db : DB) (a : SearchArgs) : List Story :=
  let include_tags := check_set_tags db a.include_tags
  let exclude_tags := check_set_tags db a.exclude_tags
  let include_users := dedupSet a.include_users
  let exclude_users := dedupSet a.exclude_users
  let include_phrases := dedupSet a.include_phrases
  let exclude_phrases := dedupSet a.exclude_phrases
  let sort_by := a.sort_by.getD "modified"
  let key := ordering_key sort_by
  let le : Story → Story → Bool :=
    if a.descending then fun x y => key y ≤ key x else fun x y => key x ≤ key y
  let r0 := Story.visible_stories db a.user
  let r1 := filter_tags db include_tags exclude_tags r0
  let r2 := filter_users include_users exclude_users r1
  let r3 := filter_phrases include_phrases exclude_phrases r2
  let r4 := filter_risque_stage a.filter_risque r3
  sort_stories le (distinct_by_key (fun s => (s.id, key s)) [] r4)

/-- SearchResults.__init__: validate (collecting every message before
raising), then assemble, count, slice with the start clamped to
`min(offset, num_results - 1 if num_results > 0 else 0)`, and compute the
1-based window bounds. -/
def SearchResults.init (db : DB) (a : SearchArgs) : Except (List String) SearchResult :=
  let errors := search_errors a
  if errors.length > 0 then
    Except.error errors
  else
    let sorted := assemble_sorted db a
    let n := sorted.length
    let o := a.offset.toNat
    let c := a.count.toNat
    let sliceStart := min o (if n > 0 then n - 1 else 0)
    Except.ok
      { results := ((sorted.drop sliceStart).take (o + c - sliceStart)).map Story.id
        num_results := n
        start := min (o + 1) n
        «end» := min (o + c) n }

/- ===== the free-text query parser (app.search_page, src/app.py 645-733) ===== -/

/-- The criteria sets app.search_page accumulates while scanning a raw
query string; Python sets modelled as duplicate-free lists in insertion
order. -/
structure Criteria where
  include_tags : List String := []
  exclude_tags : List String := []
  include_users : List String := []
  exclude_users : List String := []
  include_phrases : List String := []
  exclude_phrases : List String := []
deriving DecidableEq

/-- The quoted-text loop: consume until an unescaped double quote (a
backslash escapes the next character) or end of input; returns the text and
the remaining query. -/
def text_group (acc : List Char) (escape : Bool) : List Char → (List Char × List Char)
  | [] => (acc, [])
  | c :: rest =>
    if c = quoteChar && !escape then (acc, rest)
    else if c = backslashChar && !escape then text_group acc true rest
    else text_group (acc ++ [c]) false rest

/-- The generic-token loop: consume until a space (consumed) or a double
quote (pushed back); returns the token text and the remaining query. -/
def generic_token (acc : List Char) : List Char → (List Char × List Char)
  | [] => (acc, [])
  | c :: rest =>
    if c = ' ' then (acc, rest)
    else if c = quoteChar then (acc, c :: rest)
    else generic_token (acc ++ [c]) rest

/-- Python `text.split(':', 1)` producing the parts list. -/
def colon_parts (text : List Char) : List (List Char) :=
  match splitFirst ':' text with
  | none => [text]
  | some (a, b) => [a, b]

/-- Classification of a completed generic token (the user / tag / bare
phrase branches of app.search_page). -/
def classify_token (text : List Char) (negate : Bool) (crit : Criteria) : Criteria :=
  let parts := colon_parts text
  if text.contains ':' && parts.headD [] = "user".data then
    let username := String.mk ((parts.getLastD []))
    if User.is_valid_username username then
      if negate then { crit with exclude_users := addSet username crit.exclude_users }
      else { crit with include_users := addSet username crit.include_users }
    else crit
  else if (text.contains ':' && parts.all (fun x => x.length > 0)) ||
      text.headD ' ' = '#' then
    let (text2, parts2) :=
      if text.headD ' ' = '#' then
        (text.drop 1, (parts.headD []).drop 1 :: parts.tail)
      else (text, parts)
    if Tag.is_valid_name (String.mk (parts2.getLastD [])) &&
        (parts2.length = 1 ||
          (parts2.length = 2 && Tag.is_valid_type (String.mk (parts2.headD [])))) then
      if negate then
        { crit with exclude_tags := addSet (String.mk text2) crit.exclude_tags }
      else
        { crit with include_tags := addSet (String.mk text2) crit.include_tags }
    else crit
  else if text.length ≥ 3 && !(text.contains ':') then
    if negate then
      { crit with exclude_phrases := addSet (String.mk text) crit.exclude_phrases }
    else
      { crit with include_phrases := addSet (String.mk text) crit.include_phrases }
  else crit

/-- The main scanning loop of app.search_page. Fuel-based for kernel
reduction: every iteration consumes at least one character, so the fuel
chosen in parse_query never runs out. -/
def parse_query_loop : Nat → List Char → Bool → Criteria → Criteria
  | 0, _, _, crit => crit
  | _ + 1, [], _, crit => crit
  | fuel + 1, c :: rest, negate, crit =>
    if c = ' ' then
      parse_query_loop fuel rest negate crit
    else if c = '!' then
      parse_query_loop fuel rest (!negate) crit
    else if c = quoteChar then
      let (text, rest1) := text_group [] false rest
      let rest2 :=
        match rest1 with
        | ' ' :: r => r
        | r => r
      let crit2 :=
        if text.length ≥ 3 then
          if negate then
            { crit with exclude_phrases := addSet (String.mk text) crit.exclude_phrases }
          else
            { crit with include_phrases := addSet (String.mk text) crit.include_phrases }
        else crit
      parse_query_loop fuel rest2 false crit2
    else
      let (text, rest1) := generic_token [] (c :: rest)
      parse_query_loop fuel rest1 false (classify_token text negate crit)

/-- app.search_page's query parsing: collapse whitespace, then scan. -/
def parse_query (q : String) : Criteria :=
  let cs := (reduce_whitespace q).data
  parse_query_loop (cs.length + 1) cs false {}

/-- The SearchResults.__init__ call app.search_page makes from parsed
criteria (offset/count/sort_by/descending/filter_risque as computed from
request args; criteria sets passed through). -/
def search_page_args (user : Option User) (offset count : Int) (sort_by : String)
    (descending : Bool) (filter_risque : Option Bool) (crit : Criteria) : SearchArgs :=
  { user := user
    offset := offset
    count := count
    sort_by := some sort_by
    descending := descending
    filter_risque := filter_risque
    include_tags := crit.include_tags
    exclude_tags := crit.exclude_tags
    include_users := crit.include_users
    exclude_users := crit.exclude_users
    include_phrases := crit.include_phrases
    exclude_phrases := crit.exclude_phrases }

/- ===== concrete stores and requests used to instantiate the theorems ===== -/

/-- A store with a single public, non-risque story. -/
def dbA : DB :=
  { stories := [{ id := 1, author := "alice", title := "The Moon", flags := 0,
                  chapters := [{ flags := 0, author_notes := none,
                                 text := "hello world" }] }] }

/-- A store with one public story tagged with the generic tag `romance`. -/
def db1 : DB :=
  { stories := [{ id := 1, author := "alice", title := "T", flags := 0 }],
    tags := [{ id := 7, ttype := TagType.generic, name := "romance" }],
    story_tags := [(1, 7)] }

/-- A structured request whose include_tags holds a syntactically malformed
token, an unresolvable token and one resolvable token. -/
def a1C1 : SearchArgs := { include_tags := ["#a b", "#nosuchtag", "#romance"] }

/-- A request paging past the end of the result set. -/
def a2C2 : SearchArgs := { offset := 5, count := 3 }

/-- A store with two public stories: story 1 has a chapter with NULL author
notes and no occurrence of "zzz" anywhere; story 2 carries "zzz" in its
title but its chapter's author notes are non-NULL. -/
def db3 : DB :=
  { stories :=
    [{ id := 1, author := "alice", title := "The Moon", summary := "stuff",
       flags := 0, modified := 10,
       chapters := [{ flags := 0, author_notes := none, text := "hello world" }] },
     { id := 2, author := "alice", title := "zzz inside", summary := "sum",
       flags := 0, modified := 5,
       chapters := [{ flags := 0, author_notes := some "note", text := "words" }] }] }

/-- The phrase request for the db3 scenario. -/
def a3C3 : SearchArgs := { include_phrases := ["zzz"] }

/-- A store with the generic tag `romance` (id 7), story 1 tagged with it
and story 2 untagged; both stories public with a public NULL-notes chapter. -/
def db5 : DB :=
  { stories :=
    [{ id := 1, author := "alice", title := "A", summary := "s", flags := 0,
       modified := 10,
       chapters := [{ flags := 0, author_notes := none, text := "once upon" }] },
     { id := 2, author := "alice", title := "B", summary := "s", flags := 0,
       modified := 5,
       chapters := [{ flags := 0, author_notes := none, text := "other text" }] }],
    tags := [{ id := 7, ttype := TagType.generic, name := "romance" }],
    story_tags := [(1, 7)] }

/-- The free-text query of the §8 scenario. -/
def q5 : String := "#romance !user:bob \"happy ending\""

/-- The SearchResults call app.search_page assembles for q5 (anonymous
viewer, default paging). -/
def args5 : SearchArgs :=
  search_page_args none 0 25 "modified" true (some true) (parse_query q5)

/-- A store with one non-risque story (id 1) and one risque story (id 2). -/
def dbR : DB :=
  { stories :=
    [{ id := 1, author := "ann", flags := 0, modified := 3 },
     { id := 2, author := "ann", flags := 8, modified := 9 }] }

/-- A default-argument request from a viewer who allows risque content. -/
def argsR : SearchArgs := { user := some { username := "udo", allow_risque := true } }

/-- A private story (default flags PRIVATE|CAN_COMMENT). -/
def sPriv : Story := { id := 9, author := "alice" }

/-- A store holding the private story and a public one. -/
def dbW : DB := { stories := [sPriv, { id := 1, author := "ann", flags := 0 }] }

/-- A viewer with allow_risque off. -/
def uF : User := { username := "nora" }

/-- A viewer with allow_risque on. -/
def uT : User := { username := "rafa", allow_risque := true }

/-- The single-story result window shared by several concrete scenarios. -/
def rA : SearchResult := { results := [1], num_results := 1, start := 1, «end» := 1 }

/-- A request violating two constraints at once: negative offset and an
unrecognized sort key. -/
def a6 : SearchArgs := { offset := -1, sort_by := some "alphabetical" }

/- ===== supporting lemmas ===== -/

theorem mem_of_mem_ordered_insert {le : Story → Story → Bool} {x y : Story} :
    ∀ {l : List Story}, y ∈ ordered_insert le x l → y = x ∨ y ∈ l := by
  intro l
  induction l with
  | nil =>
    intro h
    simp only [ordered_insert, List.mem_singleton] at h
    exact Or.inl h
  | cons z zs ih =>
    intro h
    simp only [ordered_insert] at h
    split at h
    · rcases List.mem_cons.mp h with h1 | h2
      · exact Or.inl h1
      · exact Or.inr h2
    · rcases List.mem_cons.mp h with h1 | h2
      · exact Or.inr (h1 ▸ List.mem_cons_self z zs)
      · rcases ih h2 with h3 | h4
        · exact Or.inl h3
        · exact Or.inr (List.mem_cons_of_mem z h4)

theorem mem_of_mem_sort_stories {le : Story → Story → Bool} {y : Story} :
    ∀ {l : List Story}, y ∈ sort_stories le l → y ∈ l := by
  intro l
  induction l with
  | nil => intro h; simp [sort_stories] at h
  | cons z zs ih =>
    intro h
    simp only [sort_stories] at h
    rcases mem_of_mem_ordered_insert h with h1 | h2
    · exact h1 ▸ List.mem_cons_self z zs
    · exact List.mem_cons_of_mem z (ih h2)

theorem mem_of_mem_distinct_by_key {key : Story → Nat × Nat} {y : Story} :
    ∀ {seen : List (Nat × Nat)} {l : List Story},
      y ∈ distinct_by_key key seen l → y ∈ l := by
  intro seen l
  induction l generalizing seen with
  | nil => intro h; simp [distinct_by_key] at h
  | cons z zs ih =>
    intro h
    simp only [distinct_by_key] at h
    split at h
    · exact List.mem_cons_of_mem z (ih h)
    · rcases List.mem_cons.mp h with h1 | h2
      · exact h1 ▸ List.mem_cons_self z zs
      · exact List.mem_cons_of_mem z (ih h2)

theorem filter_tags_subset (db : DB) (i e : List Nat) (l : List Story) :
    filter_tags db i e l ⊆ l := by
  unfold filter_tags
  split
  · split
    · split
      · exact fun x hx =>
          List.filter_subset' l (List.filter_subset' (l.filter _) hx)
      · exact fun x hx => List.filter_subset' l hx
    · split
      · exact fun x hx => List.filter_subset' l hx
      · exact fun x hx => hx
  · exact fun x hx => hx

theorem filter_users_subset (i e : List String) (l : List Story) :
    filter_users i e l ⊆ l := by
  unfold filter_users
  split
  · split
    · split
      · exact fun x hx =>
          List.filter_subset' l (List.filter_subset' (l.filter _) hx)
      · exact fun x hx => List.filter_subset' l hx
    · split
      · exact fun x hx => List.filter_subset' l hx
      · exact fun x hx => hx
  · exact fun x hx => hx

theorem filter_phrases_subset (i e : List String) (l : List Story) :
    filter_phrases i e l ⊆ l := by
  unfold filter_phrases
  split
  · exact List.filter_subset' l
  · exact fun x hx => hx

theorem filter_risque_stage_subset (fr : Option Bool) (l : List Story) :
    filter_risque_stage fr l ⊆ l := by
  unfold filter_risque_stage
  match fr with
  | some true => exact List.filter_subset' l
  | some false => exact List.filter_subset' l
  | none => exact fun x hx => hx

theorem visible_stories_subset (db : DB) (u : Option User) :
    Story.visible_stories db u ⊆ db.stories := by
  unfold Story.visible_stories
  split
  · exact fun x hx =>
      List.filter_subset' db.stories (List.filter_subset' (db.stories.filter _) hx)
  · exact List.filter_subset' db.stories

theorem mem_assemble_sorted {db : DB} {a : SearchArgs} {s : Story}
    (h : s ∈ assemble_sorted db a) :
    s ∈ filter_risque_stage a.filter_risque
      (filter_phrases (dedupSet a.include_phrases) (dedupSet a.exclude_phrases)
        (filter_users (dedupSet a.include_users) (dedupSet a.exclude_users)
          (filter_tags db (check_set_tags db a.include_tags)
            (check_set_tags db a.exclude_tags)
            (Story.visible_stories db a.user)))) := by
  simp only [assemble_sorted] at h
  exact mem_of_mem_distinct_by_key (mem_of_mem_sort_stories h)

theorem mem_foldl_addSet (l : List String) :
    ∀ (acc : List String) (x : String),
      x ∈ l.foldl (fun acc y => addSet y acc) acc → x ∈ acc ∨ x ∈ l := by
  induction l with
  | nil => intro acc x h; exact Or.inl h
  | cons y ys ih =>
    intro acc x h
    rcases ih (addSet y acc) x h with hacc | hl
    · unfold addSet at hacc
      split at hacc
      · exact Or.inl hacc
      · rcases List.mem_append.mp hacc with h1 | h2
        · exact Or.inl h1
        · simp only [List.mem_singleton] at h2
          exact Or.inr (h2 ▸ List.mem_cons_self y ys)
    · exact Or.inr (List.mem_cons_of_mem y hl)

theorem mem_dedupSet {x : String} {l : List String} (h : x ∈ dedupSet l) : x ∈ l := by
  rcases mem_foldl_addSet l [] x h with h1 | h2
  · exact absurd h1 (List.not_mem_nil x)
  · exact h2

theorem init_ok_elim (db : DB) (a : SearchArgs) (r : SearchResult)
    (h : SearchResults.init db a = Except.ok r) :
    search_errors a = [] ∧
    r = { results :=
            (((assemble_sorted db a).drop
                (min a.offset.toNat
                  (if (assemble_sorted db a).length > 0 then
                    (assemble_sorted db a).length - 1 else 0))).take
              (a.offset.toNat + a.count.toNat -
                min a.offset.toNat
                  (if (assemble_sorted db a).length > 0 then
                    (assemble_sorted db a).length - 1 else 0))).map Story.id
          num_results := (assemble_sorted db a).length
          start := min (a.offset.toNat + 1) (assemble_sorted db a).length
          «end» := min (a.offset.toNat + a.count.toNat) (assemble_sorted db a).length } := by
  simp only [SearchResults.init] at h
  split at h
  · exact absurd h (by simp)
  · next hlen =>
    refine ⟨List.length_eq_zero.mp (Nat.eq_zero_of_not_pos hlen), ?_⟩
    injection h with h2
    exact h2.symm

theorem one_le_count_of_no_errors (a : SearchArgs) (hv : search_errors a = []) :
    1 ≤ a.count.toNat := by
  unfold search_errors at hv
  obtain ⟨h6, -⟩ := List.append_eq_nil.mp hv
  obtain ⟨h5, -⟩ := List.append_eq_nil.mp h6
  obtain ⟨h4, -⟩ := List.append_eq_nil.mp h5
  obtain ⟨h3, -⟩ := List.append_eq_nil.mp h4
  obtain ⟨h2, -⟩ := List.append_eq_nil.mp h3
  obtain ⟨-, hcnt⟩ := List.append_eq_nil.mp h2
  by_cases hc : a.count < 1
  · rw [if_pos hc] at hcnt
    exact absurd hcnt (by simp)
  · omega

/- ===== the claims ===== -/

/-- C7: a story with the PRIVATE flag set is not contained in
visible_stories for any viewer, the author and the anonymous viewer
included. -/
theorem private_story_never_visible (db : DB) (viewer : Option User) (s : Story)
    (h : s.flags &&& Story.PRIVATE ≠ 0) : s ∉ Story.visible_stories db viewer := by
  intro hmem
  have hbase : (s.flags &&& (Story.PRIVATE ||| Story.PROTECTED) == 0) = true := by
    simp only [Story.visible_stories] at hmem
    split at hmem
    · exact (List.mem_filter.mp (List.mem_filter.mp hmem).1).2
    · exact (List.mem_filter.mp hmem).2
  have h30 : s.flags &&& (Story.PRIVATE ||| Story.PROTECTED) = 0 := by
    simpa using hbase
  apply h
  have hkey : (Story.PRIVATE ||| Story.PROTECTED) &&& Story.PRIVATE = Story.PRIVATE := by
    decide
  calc s.flags &&& Story.PRIVATE
      = s.flags &&& ((Story.PRIVATE ||| Story.PROTECTED) &&& Story.PRIVATE) := by
        rw [hkey]
    _ = s.flags &&& (Story.PRIVATE ||| Story.PROTECTED) &&& Story.PRIVATE :=
        (Nat.and_assoc _ _ _).symm
    _ = 0 &&& Story.PRIVATE := by rw [h30]
    _ = 0 := Nat.zero_and _

/-- C7 witness: the concrete private story is invisible to the anonymous
viewer of the concrete store. -/
theorem private_story_never_visible_witness :
    sPriv ∉ Story.visible_stories dbW none :=
  private_story_never_visible dbW none sPriv (by decide)

/-- C8: over a fixed store, visible_stories for the anonymous viewer is
contained in visible_stories for any viewer without allow_risque, and the
latter is contained in visible_stories for a viewer with allow_risque. -/
theorem visible_stories_monotone_in_allow_risque (db : DB) (u u1 u2 : User)
    (h : u.allow_risque = false) (h1 : u1.allow_risque = false)
    (h2 : u2.allow_risque = true) :
    Story.visible_stories db none ⊆ Story.visible_stories db (some u) ∧
    Story.visible_stories db (some u1) ⊆ Story.visible_stories db (some u2) := by
  have base := db.stories.filter
    (fun s => s.flags &&& (Story.PRIVATE ||| Story.PROTECTED) == 0)
  have he0 : Story.visible_stories db none =
      (db.stories.filter
        (fun s => s.flags &&& (Story.PRIVATE ||| Story.PROTECTED) == 0)).filter
        (fun s => s.flags &&& Story.IS_RISQUE == 0) := by
    simp only [Story.visible_stories]
    simp
  have heu : Story.visible_stories db (some u) =
      (db.stories.filter
        (fun s => s.flags &&& (Story.PRIVATE ||| Story.PROTECTED) == 0)).filter
        (fun s => s.flags &&& Story.IS_RISQUE == 0) := by
    simp only [Story.visible_stories, h]
    simp
  have he1 : Story.visible_stories db (some u1) =
      (db.stories.filter
        (fun s => s.flags &&& (Story.PRIVATE ||| Story.PROTECTED) == 0)).filter
        (fun s => s.flags &&& Story.IS_RISQUE == 0) := by
    simp only [Story.visible_stories, h1]
    simp
  have he2 : Story.visible_stories db (some u2) =
      db.stories.filter
        (fun s => s.flags &&& (Story.PRIVATE ||| Story.PROTECTED) == 0) := by
    simp only [Story.visible_stories, h2]
    simp
  constructor
  · rw [he0, heu]
    exact fun x hx => hx
  · rw [he1, he2]
    exact List.filter_subset' _

/-- C8 witness: the subset relations instantiated on the concrete store and
viewers. -/
theorem visible_stories_monotone_in_allow_risque_witness :
    Story.visible_stories dbW none ⊆ Story.visible_stories dbW (some uF) ∧
    Story.visible_stories dbW (some uF) ⊆ Story.visible_stories dbW (some uT) :=
  visible_stories_monotone_in_allow_risque dbW uF uF uT rfl rfl rfl

/-- C4: for a successfully constructed search, start and end are both zero
exactly when num_results is zero, and otherwise 1 ≤ start ≤ end ≤
num_results. -/
theorem search_window_bounds_invariant (db : DB) (a : SearchArgs) (r : SearchResult)
    (h : SearchResults.init db a = Except.ok r) :
    ((r.start = 0 ∧ r.«end» = 0) ↔ r.num_results = 0) ∧
    (r.num_results ≠ 0 →
      1 ≤ r.start ∧ r.start ≤ r.«end» ∧ r.«end» ≤ r.num_results) := by
  obtain ⟨hv, hr⟩ := init_ok_elim db a r h
  have hc := one_le_count_of_no_errors a hv
  subst hr
  dsimp only
  omega

/-- C4 witness: the invariant instantiated on a concrete one-story search. -/
theorem search_window_bounds_invariant_witness :
    ((rA.start = 0 ∧ rA.«end» = 0) ↔ rA.num_results = 0) ∧
    (rA.num_results ≠ 0 →
      1 ≤ rA.start ∧ rA.start ≤ rA.«end» ∧ rA.«end» ≤ rA.num_results) :=
  search_window_bounds_invariant dbA {} rA rfl

/-- C9: the returned page has end - start + 1 identifiers when num_results
is positive, none when num_results is zero, and never more than count. -/
theorem search_page_size_invariant (db : DB) (a : SearchArgs) (r : SearchResult)
    (h : SearchResults.init db a = Except.ok r) :
    (r.num_results = 0 → r.results.length = 0) ∧
    (r.num_results ≠ 0 → r.results.length = r.«end» - r.start + 1) ∧
    r.results.length ≤ a.count.toNat := by
  obtain ⟨hv, hr⟩ := init_ok_elim db a r h
  have hc := one_le_count_of_no_errors a hv
  subst hr
  dsimp only
  simp only [List.length_map, List.length_take, List.length_drop]
  rcases Nat.eq_zero_or_pos (assemble_sorted db a).length with h0 | h0
  · rw [if_neg (by omega)]
    omega
  · rw [if_pos h0]
    omega

/-- C9 witness: the page-size invariant instantiated on a concrete
one-story search. -/
theorem search_page_size_invariant_witness :
    (rA.num_results = 0 → rA.results.length = 0) ∧
    (rA.num_results ≠ 0 → rA.results.length = rA.«end» - rA.start + 1) ∧
    rA.results.length ≤ ({} : SearchArgs).count.toNat :=
  search_page_size_invariant dbA {} rA rfl

/-- C2 counterexample: with one visible story, offset 5 and count 3 the
constructor succeeds but returns a page holding one story identifier, not
the empty list the claim requires. -/
theorem search_offset_beyond_results_nonempty_page :
    SearchResults.init dbA a2C2 = Except.ok rA ∧
    a2C2.offset = 5 ∧ a2C2.count = 3 ∧ rA.num_results = 1 ∧
    rA.results.length ≠ 0 :=
  ⟨rfl, rfl, rfl, rfl, by decide⟩

/-- C2 amended: for every valid request whose offset is at or beyond a
positive num_results, no error is raised and the returned page holds
exactly one story identifier (the slice start is clamped to
num_results - 1). -/
theorem search_offset_beyond_results_single_story (db : DB) (a : SearchArgs)
    (hv : search_errors a = []) (hn : 0 < (assemble_sorted db a).length)
    (hoff : (assemble_sorted db a).length ≤ a.offset.toNat) :
    ∃ r, SearchResults.init db a = Except.ok r ∧ r.results.length = 1 ∧
      r.num_results = (assemble_sorted db a).length := by
  have hc := one_le_count_of_no_errors a hv
  cases hE : SearchResults.init db a with
  | error e =>
    exfalso
    simp only [SearchResults.init] at hE
    rw [hv] at hE
    simp at hE
  | ok r =>
    obtain ⟨-, hr⟩ := init_ok_elim db a r hE
    subst hr
    refine ⟨_, rfl, ?_, rfl⟩
    dsimp only
    simp only [List.length_map, List.length_take, List.length_drop]
    rw [if_pos hn]
    omega

/-- C2 amended witness: the one-story page at offset 5, count 3 over a
single-result store. -/
theorem search_offset_beyond_results_single_story_witness :
    ∃ r, SearchResults.init dbA a2C2 = Except.ok r ∧ r.results.length = 1 ∧
      r.num_results = (assemble_sorted dbA a2C2).length :=
  search_offset_beyond_results_single_story dbA a2C2 rfl (by decide) (by decide)

/-- C6: a structured call violating both the offset constraint and the
sort_by constraint raises one validation error carrying a descriptive
message for each violated constraint, and produces no result. -/
theorem search_validation_collects_all_messages (db : DB) (a : SearchArgs) (s : String)
    (hoff : a.offset < 0) (hsort : a.sort_by = some s)
    (hbad : SearchSortEnum.good_values.contains s = false) :
    SearchResults.init db a = Except.error (search_errors a) ∧
    "'offset' must be greater than zero." ∈ search_errors a ∧
    "'sort_by' must be one of: modified, posted, favorites, follows" ∈
      search_errors a := by
  have hm1 : "'offset' must be greater than zero." ∈ search_errors a := by
    unfold search_errors
    rw [if_pos hoff]
    simp
  have hm2 : "'sort_by' must be one of: modified, posted, favorites, follows" ∈
      search_errors a := by
    unfold search_errors
    rw [hsort]
    simp
    simpa using hbad
  refine ⟨?_, hm1, hm2⟩
  simp only [SearchResults.init]
  rw [if_pos (List.length_pos.mpr (List.ne_nil_of_mem hm1))]

/-- C6 witness: offset -1 together with sort_by "alphabetical" yields one
error holding both messages. -/
theorem search_validation_collects_all_messages_witness :
    SearchResults.init dbA a6 = Except.error (search_errors a6) ∧
    "'offset' must be greater than zero." ∈ search_errors a6 ∧
    "'sort_by' must be one of: modified, posted, favorites, follows" ∈
      search_errors a6 :=
  search_validation_collects_all_messages dbA a6 "alphabetical" (by decide) rfl
    (by decide)

/-- C1 counterexample: the structured constructor, given include_tags
holding a syntactically malformed token and a token that does not resolve,
raises nothing and returns a result. -/
theorem structured_search_bad_tag_token_returns_result :
    SearchResults.init db1 a1C1 = Except.ok rA ∧
    tagResolves db1 "#a b" = false ∧
    tagResolves db1 "#nosuchtag" = false ∧
    tagResolves db1 "#romance" = true :=
  ⟨rfl, rfl, rfl, rfl⟩

/-- C1 amended: malformed or unresolvable tag tokens never make the
structured constructor raise; any error it raises is exactly the error it
would raise with the tag arguments emptied, and every id in the resolved
include-tag set comes from a token that resolves to an existing tag. -/
theorem structured_search_drops_unresolvable_tag_tokens (db : DB) (a : SearchArgs) :
    (∀ e, SearchResults.init db a = Except.error e →
      SearchResults.init db { a with include_tags := [], exclude_tags := [] } =
        Except.error e) ∧
    (∀ i, i ∈ check_set_tags db a.include_tags →
      ∃ x t, x ∈ a.include_tags ∧ Tag.get db x = Except.ok (some t) ∧ t.id = i) := by
  constructor
  · intro e hE
    have hsame : search_errors { a with include_tags := [], exclude_tags := [] } =
        search_errors a := rfl
    simp only [SearchResults.init] at hE ⊢
    rw [hsame]
    by_cases hc : (search_errors a).length > 0
    · rw [if_pos hc] at hE ⊢
      exact hE
    · rw [if_neg hc] at hE
      exact absurd hE (by simp)
  · intro i hi
    unfold check_set_tags at hi
    obtain ⟨x, hx, hfx⟩ := List.mem_filterMap.mp hi
    cases hg : Tag.get db x with
    | error e =>
      rw [hg] at hfx
      simp at hfx
    | ok o =>
      cases o with
      | none =>
        rw [hg] at hfx
        simp at hfx
      | some t =>
        rw [hg] at hfx
        simp at hfx
        exact ⟨x, t, mem_dedupSet hx, hg, hfx⟩

/-- C1 amended witness: over the concrete store, the only id resolved from
the mixed include_tags list is traced back to the resolvable token. -/
theorem structured_search_drops_unresolvable_tag_tokens_witness :
    ∃ x t, x ∈ a1C1.include_tags ∧ Tag.get db1 x = Except.ok (some t) ∧ t.id = 7 :=
  (structured_search_drops_unresolvable_tag_tokens db1 a1C1).2 7 (by decide)

/-- C3 code divergence: searching for the phrase "zzz" returns story 1,
none of whose four searched fields contains "zzz" (its chapter's NULL
author notes satisfy the clause outright), while story 2, whose title does
contain "zzz", is not returned (the ilike pattern carries literal single
quotes). -/
theorem phrase_filter_divergence_at_failing_input :
    SearchResults.init db3 a3C3 = Except.ok rA ∧
    ¬ containsCI "The Moon" "zzz" ∧
    ¬ containsCI "stuff" "zzz" ∧
    ¬ containsCI "hello world" "zzz" ∧
    containsCI "zzz inside" "zzz" ∧
    db3.stories.map Story.id = [1, 2] :=
  ⟨rfl, by decide, by decide, by decide, by decide, rfl⟩

/-- C5 code divergence: parsing the §8 scenario query stores the
hash-stripped token "romance", which Tag.get cannot resolve ("No tag type
provided"), so the assembled search applies no tag filter and returns the
untagged story 2 alongside the tagged story 1. -/
theorem hash_tag_token_divergence_at_failing_input :
    parse_query q5 =
      { include_tags := ["romance"], exclude_users := ["bob"],
        include_phrases := ["happy ending"] } ∧
    Tag.get db5 "#romance" =
      Except.ok (some { id := 7, ttype := TagType.generic, name := "romance" }) ∧
    tagResolves db5 "romance" = false ∧
    check_set_tags db5 ["romance"] = [] ∧
    SearchResults.init db5 args5 =
      Except.ok { results := [1, 2], num_results := 2, start := 1, «end» := 2 } ∧
    db5.story_tags = [(1, 7)] :=
  ⟨rfl, rfl, rfl, rfl, rfl, rfl⟩

/-- C10: filter_risque defaults to true, and with filter_risque true every
returned story identifier belongs to a stored story whose IS_RISQUE flag is
clear, whoever the viewer is. -/
theorem default_filter_risque_excludes_risque :
    (({} : SearchArgs).filter_risque = some true) ∧
    ∀ (db : DB) (a : SearchArgs) (r : SearchResult) (i : Nat),
      a.filter_risque = some true →
      SearchResults.init db a = Except.ok r →
      i ∈ r.results →
      ∃ s, s ∈ db.stories ∧ s.id = i ∧ s.flags &&& Story.IS_RISQUE = 0 := by
  refine ⟨rfl, ?_⟩
  intro db a r i hfr h hi
  obtain ⟨-, hr⟩ := init_ok_elim db a r h
  subst hr
  dsimp only at hi
  obtain ⟨s, hs, hsi⟩ := List.mem_map.mp hi
  have hsorted : s ∈ assemble_sorted db a :=
    List.drop_subset _ _ (List.take_subset _ _ hs)
  have h4 := mem_assemble_sorted hsorted
  rw [hfr] at h4
  simp only [filter_risque_stage] at h4
  have hflag : (s.flags &&& Story.IS_RISQUE == 0) = true := (List.mem_filter.mp h4).2
  have hmem : s ∈ db.stories :=
    visible_stories_subset db a.user
      (filter_tags_subset db _ _ _
        (filter_users_subset _ _ _
          (filter_phrases_subset _ _ _ (List.mem_filter.mp h4).1)))
  exact ⟨s, hmem, hsi, by simpa using hflag⟩

/-- C10 witness: a viewer with allow_risque on and default arguments still
only receives the non-risque story of the concrete store. -/
theorem default_filter_risque_excludes_risque_witness :
    ∃ s, s ∈ dbR.stories ∧ s.id = 1 ∧ s.flags &&& Story.IS_RISQUE = 0 :=
  default_filter_risque_excludes_risque.2 dbR argsR rA 1 rfl rfl (by decide)

end FS
